import Mathlib

/-!
# Verification of the TOF PID merge pipeline (`pidTOFMerge.cxx`)

Shallow embedding of `Common/TableProducer/PID/pidTOFMerge.cxx`.
Floating-point values are modelled as rationals (`ℚ`); machine floats in the
source carry physical time values far from overflow, so exact rational
arithmetic is the intended semantics of the formulas.

Conventions used throughout:
* `collisionId : Int`, with `-1` standing for a track without a collision
  association (`has_collision()` is `0 ≤ collisionId`, as in the AOD data
  model where unassigned tracks carry index `-1`).
* For the Run-3 TOF+FT0 branch the source emits
  `tableEvTime(eventTime / sumOfWeights, std::sqrt(1. / sumOfWeights))`.
  Since `Real.sqrt` is not computable we store the *square* of the emitted
  error in the field `err2`; every comparison of interest
  (equality with `999` or `kErrDiamond`, positivity, the ceiling bound) is
  equivalent to the same comparison of squares because both sides are
  nonnegative and squaring is strictly monotone there.
  The no-collision sentinel `(0.f, 999.f)` therefore has `err2 = 999 * 999`.
-/

/-! ## Constants of `struct tofEventTime` (source lines 522-525) -/

/-- `kDiamond = 6.0` — collision diamond used in the TOF event time. -/
def kDiamond : ℚ := 6

/-- `kErrDiamond = kDiamond * 33.356409f` (source line 524). -/
def kErrDiamond : ℚ := kDiamond * (33356409 / 1000000)

/-- `kWeightDiamond = 1.f / (kErrDiamond * kErrDiamond)` (source line 525). -/
def kWeightDiamond : ℚ := 1 / (kErrDiamond * kErrDiamond)

/-! ## PID flags

`o2::aod::pidflags::enums::PIDFlags` is a bit mask with distinct bits for the
TOF-internal and the FT0 event-time sources; we model the mask as a record of
the two bits.  `⟨false, false⟩` is the zero mask `tableFlags(0)`. -/

structure PIDFlagsV where
  evTimeTOF : Bool
  evTimeT0AC : Bool
deriving DecidableEq, Repr

/-- The zero flag mask, `tableFlags(0)` in the source. -/
def noFlags : PIDFlagsV := ⟨false, false⟩

/-! ## FT0 information of a collision (fields read on lines 729-735) -/

structure FT0Info where
  hasFoundFT0 : Bool
  t0ACValid : Bool
  t0AC : ℚ
  t0res : ℚ
deriving DecidableEq, Repr

/-! ## Run-3 TOF+FT0 combined branch (source lines 678-754)

Per track the source accumulates `eventTime`, `sumOfWeights` and `flags`,
starting from zero, in two steps: the (bias-removed) TOF estimate and the FT0
estimate of the collision. -/

/-- Accumulator `(eventTime, sumOfWeights, flags)` of the combined branch. -/
structure EvAccum where
  eventTime : ℚ
  sumOfWeights : ℚ
  flags : PIDFlagsV
deriving DecidableEq, Repr

/-- TOF step of the combined branch (source lines 721-727): if the
bias-removed error is below `kErrDiamond` and the value passes the optional
`maxEvTimeTOF` cutoff, add the inverse-variance term and set the TOF flag. -/
def tofStep (maxEvTimeTOF t0TOFValue t0TOFError : ℚ) : EvAccum :=
  if t0TOFError < kErrDiamond ∧ (maxEvTimeTOF ≤ 0 ∨ |t0TOFValue| < maxEvTimeTOF) then
    ⟨t0TOFValue * (1 / (t0TOFError * t0TOFError)), 1 / (t0TOFError * t0TOFError), ⟨true, false⟩⟩
  else
    ⟨0, 0, noFlags⟩

/-- FT0 step of the combined branch (source lines 729-740): `t0AC` is
initialised to `{0, 999}`; when the collision has a found FT0 *and* the AC
time is valid it is overwritten with the measured `(t0AC, t0resolution)`
(converted ns → ps) and the `EvTimeT0AC` flag is set; whenever the collision
has a found FT0 — valid or not — the inverse-variance term of the current
`t0AC` is added to the sums. -/
def ft0Step (ft0 : FT0Info) (s : EvAccum) : EvAccum :=
  if ft0.hasFoundFT0 then
    let v : ℚ := if ft0.t0ACValid then ft0.t0AC * 1000 else 0
    let e : ℚ := if ft0.t0ACValid then ft0.t0res * 1000 else 999
    ⟨s.eventTime + v * (1 / (e * e)), s.sumOfWeights + 1 / (e * e),
     ⟨s.flags.evTimeTOF, s.flags.evTimeT0AC || ft0.t0ACValid⟩⟩
  else s

/-- Accumulated sums before the weight floor is applied. -/
def combinedPre (maxEvTimeTOF t0TOFValue t0TOFError : ℚ) (ft0 : FT0Info) : EvAccum :=
  ft0Step ft0 (tofStep maxEvTimeTOF t0TOFValue t0TOFError)

/-- Weight-floor clamp (source lines 742-748): a sum of weights below
`kWeightDiamond` forces `eventTime = 0`, `sumOfWeights = kWeightDiamond` and
zero flags. -/
def combinedFinal (maxEvTimeTOF t0TOFValue t0TOFError : ℚ) (ft0 : FT0Info) : EvAccum :=
  let p := combinedPre maxEvTimeTOF t0TOFValue t0TOFError ft0
  if p.sumOfWeights < kWeightDiamond then ⟨0, kWeightDiamond, noFlags⟩ else p

/-- A row of the `TOFEvTime`/`pidEvTimeFlags` output in the combined branch.
`err2` is the square of the emitted error (see the file header). -/
structure EvTimeRowC where
  flags : PIDFlagsV
  value : ℚ
  err2 : ℚ
deriving DecidableEq, Repr

/-- The row emitted by the combined branch (source line 749):
`tableEvTime(eventTime / sumOfWeights, sqrt(1 / sumOfWeights))` together with
the flags chosen by the clamp. -/
def combinedEvTime (maxEvTimeTOF t0TOFValue t0TOFError : ℚ) (ft0 : FT0Info) : EvTimeRowC :=
  let f := combinedFinal maxEvTimeTOF t0TOFValue t0TOFError ft0
  ⟨f.flags, f.eventTime / f.sumOfWeights, 1 / f.sumOfWeights⟩

/-- No-collision / failed-selection sentinel of the combined branch
(source lines 682-683): `tableFlags(0); tableEvTime(0.f, 999.f)`. -/
def sentinelRowC : EvTimeRowC := ⟨noFlags, 0, 999 * 999⟩

/-! ## Run-3 TOF-only branch, per-track validity gate (source lines 780-796) -/

/-- A row of the TOF-only branch; here the source emits the error itself. -/
structure EvTimeRowT where
  flags : PIDFlagsV
  value : ℚ
  err : ℚ
deriving DecidableEq, Repr

/-- Validity gate of the TOF-only branch (source lines 784-792): the
bias-removed `(et, erret)` is accepted — `EvTimeTOF` flag set — iff
`erret < kErrDiamond` and the optional cutoff passes; otherwise the diamond
default `(0, kErrDiamond)` with zero flags is emitted. -/
def tofOnlyGate (maxEvTimeTOF et erret : ℚ) : EvTimeRowT :=
  if erret < kErrDiamond ∧ (maxEvTimeTOF ≤ 0 ∨ |et| < maxEvTimeTOF) then
    ⟨⟨true, false⟩, et, erret⟩
  else
    ⟨noFlags, 0, kErrDiamond⟩

/-- No-collision / failed-selection sentinel of the TOF-only branch
(source lines 759-760). -/
def sentinelRowT : EvTimeRowT := ⟨noFlags, 0, 999⟩

/-! ## The per-track loop of `tofEventTime::processRun3`

The outer loop (lines 678-754 for TOF+FT0, 755-797 for TOF-only) walks the
track table; a track without a collision (or whose collision fails the
optional `sel8` selection) receives the sentinel row; a track of a collision
already processed is skipped because its row was appended when the collision
was first met; the first track of a new collision triggers
`tracks.sliceBy(perCollision, collisionId)` and one row is appended for every
track of that collision, in slice order. -/

/-- The track fields read by `tofEventTime::processRun3`.  `t0TOFValue` /
`t0TOFError` are the outputs of `evTimeMakerTOF.removeBias` for this track
(the event-time maker itself lives in `TOFBase/EventTimeMaker.h`, outside this
repository, so the bias-removed estimate is an input of the embedding). -/
structure TrackE where
  collisionId : Int
  sel8 : Bool
  ft0 : FT0Info
  t0TOFValue : ℚ
  t0TOFError : ℚ
deriving DecidableEq, Repr

/-- Selection applied at the top of the outer loop (source line 681):
the track is processed iff it has a collision and, when `sel8TOFEvTime` is
configured, that collision passes `sel8()`. -/
def selectedB (sel8cfg : Bool) (t : TrackE) : Bool :=
  decide (0 ≤ t.collisionId) && (!sel8cfg || t.sel8)

/-- The outer loop with the `lastCollisionId` cache, generic in the emitted
row type: `sentinel` is the row of a skipped (unselected) track and
`rowFor trigger member` the row the inner slice loop emits for `member` when
`trigger` opened the collision (the source reads the FT0 collision object of
the trigger). `all` is the full track table that `sliceBy` filters. -/
def processTracksGrouped {β : Type} (sentinel : β) (rowFor : TrackE → TrackE → β)
    (sel8cfg : Bool) (all : List TrackE) : List TrackE → Int → List β
  | [], _ => []
  | t :: rest, lastId =>
    if selectedB sel8cfg t then
      if t.collisionId = lastId then
        processTracksGrouped sentinel rowFor sel8cfg all rest lastId
      else
        ((all.filter fun x => x.collisionId == t.collisionId).map (rowFor t))
          ++ processTracksGrouped sentinel rowFor sel8cfg all rest t.collisionId
    else
      sentinel :: processTracksGrouped sentinel rowFor sel8cfg all rest lastId

/-- The TOF+FT0 branch of `tofEventTime::processRun3` (source lines 678-754):
rows of `(pidEvTimeFlags, TOFEvTime)` per input track. -/
def run3EvTimeTOFFT0 (maxEvTimeTOF : ℚ) (sel8cfg : Bool) (tracks : List TrackE) : List EvTimeRowC :=
  processTracksGrouped sentinelRowC
    (fun t x => combinedEvTime maxEvTimeTOF x.t0TOFValue x.t0TOFError t.ft0)
    sel8cfg tracks tracks (-1)

/-- The TOF-only branch of `tofEventTime::processRun3` (source lines 755-797). -/
def run3EvTimeTOFOnly (maxEvTimeTOF : ℚ) (sel8cfg : Bool) (tracks : List TrackE) : List EvTimeRowT :=
  processTracksGrouped sentinelRowT
    (fun _ x => tofOnlyGate maxEvTimeTOF x.t0TOFValue x.t0TOFError)
    sel8cfg tracks tracks (-1)

/-- Row the pipeline owes to each input track in the TOF+FT0 branch. -/
def expectedRowC (maxEvTimeTOF : ℚ) (sel8cfg : Bool) (t : TrackE) : EvTimeRowC :=
  if selectedB sel8cfg t then combinedEvTime maxEvTimeTOF t.t0TOFValue t.t0TOFError t.ft0
  else sentinelRowC

/-- Row the pipeline owes to each input track in the TOF-only branch. -/
def expectedRowT (maxEvTimeTOF : ℚ) (sel8cfg : Bool) (t : TrackE) : EvTimeRowT :=
  if selectedB sel8cfg t then tofOnlyGate maxEvTimeTOF t.t0TOFValue t.t0TOFError
  else sentinelRowT

/-! ### Contiguous grouping by collision

A batch grouped contiguously by collision is a join of groups, each carrying
the collision-level fields shared by its member tracks. -/

/-- One contiguous group of tracks sharing a collision (or the group of
unassigned tracks, with `cid < 0`). -/
structure TrackGroup where
  cid : Int
  sel8 : Bool
  ft0 : FT0Info
  members : List TrackE

/-- Well-formedness: every member carries the group's collision fields. -/
def TrackGroup.ok (g : TrackGroup) : Prop :=
  ∀ x ∈ g.members, x.collisionId = g.cid ∧ x.sel8 = g.sel8 ∧ x.ft0 = g.ft0

instance (g : TrackGroup) : Decidable g.ok := by
  unfold TrackGroup.ok; infer_instance

/-- Whether the members of a group pass the outer-loop selection. -/
def groupSelected (sel8cfg : Bool) (g : TrackGroup) : Bool :=
  decide (0 ≤ g.cid) && (!sel8cfg || g.sel8)

/-- The track table obtained by concatenating the groups. -/
def joinGroups (gs : List TrackGroup) : List TrackE :=
  (gs.map TrackGroup.members).flatten

theorem joinGroups_cons (g : TrackGroup) (gs : List TrackGroup) :
    joinGroups (g :: gs) = g.members ++ joinGroups gs := by
  simp [joinGroups]

theorem selectedB_of_mem {sel8cfg : Bool} {g : TrackGroup} (hg : g.ok)
    {x : TrackE} (hx : x ∈ g.members) :
    selectedB sel8cfg x = groupSelected sel8cfg g := by
  obtain ⟨h1, h2, _⟩ := hg x hx
  simp [selectedB, groupSelected, h1, h2]

/-! ### Behaviour of the outer loop on a grouped batch -/

theorem ptg_skip {β : Type} (sentinel : β) (rowFor : TrackE → TrackE → β)
    (sel8cfg : Bool) (all : List TrackE) (l1 l2 : List TrackE) (lastId : Int)
    (h : ∀ x ∈ l1, selectedB sel8cfg x = true ∧ x.collisionId = lastId) :
    processTracksGrouped sentinel rowFor sel8cfg all (l1 ++ l2) lastId
      = processTracksGrouped sentinel rowFor sel8cfg all l2 lastId := by
  induction l1 with
  | nil => rfl
  | cons a l ih =>
    obtain ⟨hsel, hcid⟩ := h a (List.mem_cons_self a l)
    simp only [List.cons_append, processTracksGrouped, hsel, hcid, if_pos, if_true]
    exact ih fun x hx => h x (List.mem_cons_of_mem a hx)

theorem ptg_sentinels {β : Type} (sentinel : β) (rowFor : TrackE → TrackE → β)
    (sel8cfg : Bool) (all : List TrackE) (l1 l2 : List TrackE) (lastId : Int)
    (h : ∀ x ∈ l1, selectedB sel8cfg x = false) :
    processTracksGrouped sentinel rowFor sel8cfg all (l1 ++ l2) lastId
      = l1.map (fun _ => sentinel) ++ processTracksGrouped sentinel rowFor sel8cfg all l2 lastId := by
  induction l1 with
  | nil => rfl
  | cons a l ih =>
    have hsel := h a (List.mem_cons_self a l)
    simp only [List.cons_append, processTracksGrouped, hsel, Bool.false_eq_true, if_false,
      List.map_cons]
    exact congrArg (fun y => sentinel :: y) (ih fun x hx => h x (List.mem_cons_of_mem a hx))

/-- Main correctness of the outer loop on a contiguously grouped batch: when
every group is well formed, the full-table slice of each assigned collision
is exactly its group, group keys are pairwise distinct, and the cached
`lastId` does not collide with any selected group, the emitted list is the
per-track map of the owed row. -/
theorem ptg_groups_spec {β : Type} (sentinel : β) (rowFor : TrackE → TrackE → β)
    (erow : TrackE → β)
    (hrow : ∀ t x : TrackE, t.ft0 = x.ft0 → rowFor t x = erow x)
    (sel8cfg : Bool) (all : List TrackE) (gs : List TrackGroup) (lastId : Int)
    (hok : ∀ g ∈ gs, g.ok)
    (hfil : ∀ g ∈ gs, 0 ≤ g.cid →
      all.filter (fun x => x.collisionId == g.cid) = g.members)
    (hpair : gs.Pairwise fun a b => a.cid ≠ b.cid)
    (hlast : ∀ g ∈ gs, groupSelected sel8cfg g = true → g.cid ≠ lastId) :
    processTracksGrouped sentinel rowFor sel8cfg all (joinGroups gs) lastId
      = (joinGroups gs).map
          (fun x => if selectedB sel8cfg x then erow x else sentinel) := by
  induction gs generalizing lastId with
  | nil => rfl
  | cons g rest ih =>
    have hgok : g.ok := hok g (List.mem_cons_self g rest)
    have hokR : ∀ g' ∈ rest, g'.ok := fun g' h' => hok g' (List.mem_cons_of_mem g h')
    have hfilR : ∀ g' ∈ rest, 0 ≤ g'.cid →
        all.filter (fun x => x.collisionId == g'.cid) = g'.members :=
      fun g' h' => hfil g' (List.mem_cons_of_mem g h')
    have hpairR : rest.Pairwise fun a b => a.cid ≠ b.cid := hpair.of_cons
    have hheadR : ∀ g' ∈ rest, g.cid ≠ g'.cid :=
      fun g' h' => List.rel_of_pairwise_cons hpair h'
    rw [joinGroups_cons, List.map_append]
    by_cases hsel : groupSelected sel8cfg g = true
    · -- Selected group: the first member triggers the collision slice.
      cases hm : g.members with
      | nil =>
        simp only [hm, List.nil_append, List.map_nil]
        exact ih lastId hokR hfilR hpairR
          (fun g' h' hs => hlast g' (List.mem_cons_of_mem g h') hs)
      | cons m ms =>
        have hmem : m ∈ g.members := by rw [hm]; exact List.mem_cons_self m ms
        have hmsel : selectedB sel8cfg m = true := by
          rw [selectedB_of_mem hgok hmem]; exact hsel
        have hmcid : m.collisionId = g.cid := (hgok m hmem).1
        have hcid0 : 0 ≤ g.cid := by
          have hb := hsel
          unfold groupSelected at hb
          exact of_decide_eq_true (Bool.and_elim_left hb)
        have hne : m.collisionId ≠ lastId := by
          rw [hmcid]; exact hlast g (List.mem_cons_self g rest) hsel
        have hfilter : (all.filter fun x => x.collisionId == m.collisionId) = g.members := by
          rw [hmcid]; exact hfil g (List.mem_cons_self g rest) hcid0
        have hmaps : (g.members.map (rowFor m))
            = g.members.map (fun x => if selectedB sel8cfg x then erow x else sentinel) := by
          apply List.map_congr_left
          intro x hx
          have hxsel : selectedB sel8cfg x = true := by
            rw [selectedB_of_mem hgok hx]; exact hsel
          rw [if_pos hxsel]
          exact hrow m x ((hgok m hmem).2.2.trans (hgok x hx).2.2.symm)
        rw [hm] at hfilter hmaps
        calc processTracksGrouped sentinel rowFor sel8cfg all
                ((m :: ms) ++ joinGroups rest) lastId
            = ((all.filter fun x => x.collisionId == m.collisionId).map (rowFor m))
                ++ processTracksGrouped sentinel rowFor sel8cfg all
                    (ms ++ joinGroups rest) m.collisionId := by
                simp only [List.cons_append, processTracksGrouped, hmsel, if_true,
                  if_neg hne, List.append_eq]
          _ = ((m :: ms).map (rowFor m))
                ++ processTracksGrouped sentinel rowFor sel8cfg all
                    (joinGroups rest) m.collisionId := by
                rw [hfilter]
                congr 1
                apply ptg_skip
                intro x hx
                have hxg : x ∈ g.members := by rw [hm]; exact List.mem_cons_of_mem m hx
                refine ⟨?_, ?_⟩
                · rw [selectedB_of_mem hgok hxg]; exact hsel
                · rw [(hgok x hxg).1, hmcid]
          _ = (m :: ms).map (fun x => if selectedB sel8cfg x then erow x else sentinel)
                ++ (joinGroups rest).map
                    (fun x => if selectedB sel8cfg x then erow x else sentinel) := by
                rw [hmaps, hmcid]
                congr 1
                exact ih g.cid hokR hfilR hpairR
                  (fun g' h' _ => fun hc => hheadR g' h' hc.symm)
    · -- Unselected group: every member receives the sentinel row.
      have hall : ∀ x ∈ g.members, selectedB sel8cfg x = false := by
        intro x hx
        rw [selectedB_of_mem hgok hx]
        exact Bool.eq_false_iff.mpr hsel
      rw [ptg_sentinels sentinel rowFor sel8cfg all g.members (joinGroups rest) lastId hall]
      have hmapg : g.members.map (fun x => if selectedB sel8cfg x then erow x else sentinel)
          = g.members.map (fun _ => sentinel) := by
        apply List.map_congr_left
        intro x hx
        rw [if_neg]
        simp [hall x hx]
      rw [hmapg]
      congr 1
      exact ih lastId hokR hfilR hpairR
        (fun g' h' hs => hlast g' (List.mem_cons_of_mem g h') hs)

/-! ## Shared numeric facts about the diamond constants -/

theorem kWeightDiamond_pos : 0 < kWeightDiamond := by
  norm_num [kWeightDiamond, kErrDiamond, kDiamond]

theorem one_div_kWeightDiamond : 1 / kWeightDiamond = kErrDiamond * kErrDiamond := by
  norm_num [kWeightDiamond, kErrDiamond, kDiamond]

theorem kWeightDiamond_le_finalSum (maxEvTimeTOF t0TOFValue t0TOFError : ℚ) (ft0 : FT0Info) :
    kWeightDiamond ≤ (combinedFinal maxEvTimeTOF t0TOFValue t0TOFError ft0).sumOfWeights := by
  unfold combinedFinal
  simp only []
  by_cases h : (combinedPre maxEvTimeTOF t0TOFValue t0TOFError ft0).sumOfWeights < kWeightDiamond
  · rw [if_pos h]
  · rw [if_neg h]; exact le_of_not_lt h

/-- C2: in the TOF+FT0 mode, whenever the accumulated sum of inverse-variance
weights falls below the floor `kWeightDiamond = 1/kErrDiamond²`, the emitted
tuple is the sentinel `(0, kErrDiamond)` — here `err2 = kErrDiamond²` — with
zero flags; and in every case the division producing the emitted pair uses a
sum of weights at least `kWeightDiamond > 0`, so no near-zero division
artifact (NaN/Inf) can appear in the output. -/
theorem combined_weight_floor_sentinel
    (maxEvTimeTOF t0TOFValue t0TOFError : ℚ) (ft0 : FT0Info) :
    ((combinedPre maxEvTimeTOF t0TOFValue t0TOFError ft0).sumOfWeights < kWeightDiamond →
      combinedEvTime maxEvTimeTOF t0TOFValue t0TOFError ft0
        = ⟨noFlags, 0, kErrDiamond * kErrDiamond⟩)
    ∧ kWeightDiamond = 1 / (kErrDiamond * kErrDiamond)
    ∧ 0 < (combinedFinal maxEvTimeTOF t0TOFValue t0TOFError ft0).sumOfWeights := by
  refine ⟨?_, rfl, lt_of_lt_of_le kWeightDiamond_pos
    (kWeightDiamond_le_finalSum maxEvTimeTOF t0TOFValue t0TOFError ft0)⟩
  intro h
  unfold combinedEvTime combinedFinal
  simp only []
  rw [if_pos h]
  show (⟨noFlags, 0 / kWeightDiamond, 1 / kWeightDiamond⟩ : EvTimeRowC) = _
  rw [zero_div, one_div_kWeightDiamond]

/-- C2 witness: the floor fires on a concrete input (a track whose TOF
estimate fails the gate, no FT0: both weights are zero). -/
theorem combined_weight_floor_sentinel_witness :
    (combinedPre 100000 0 300 ⟨false, false, 0, 0⟩).sumOfWeights < kWeightDiamond ∧
      combinedEvTime 100000 0 300 ⟨false, false, 0, 0⟩
        = ⟨noFlags, 0, kErrDiamond * kErrDiamond⟩ :=
  ⟨by norm_num [combinedPre, ft0Step, tofStep, kErrDiamond, kDiamond, kWeightDiamond],
   (combined_weight_floor_sentinel 100000 0 300 ⟨false, false, 0, 0⟩).1
     (by norm_num [combinedPre, ft0Step, tofStep, kErrDiamond, kDiamond, kWeightDiamond])⟩

/-- C10: every tuple emitted by the TOF+FT0 branch for a track of a selected
collision carries error `sqrt(1/sumOfWeights)` (we store its square `err2 =
1/sumOfWeights`) with `sumOfWeights ≥ kWeightDiamond`; hence the emitted
error is finite, positive and at most `kErrDiamond` — strictly below the
`999` sentinel reserved for tracks without a collision. -/
theorem combined_error_bounded
    (maxEvTimeTOF t0TOFValue t0TOFError : ℚ) (ft0 : FT0Info) :
    (combinedEvTime maxEvTimeTOF t0TOFValue t0TOFError ft0).err2
        = 1 / (combinedFinal maxEvTimeTOF t0TOFValue t0TOFError ft0).sumOfWeights
    ∧ kWeightDiamond ≤ (combinedFinal maxEvTimeTOF t0TOFValue t0TOFError ft0).sumOfWeights
    ∧ 0 < (combinedEvTime maxEvTimeTOF t0TOFValue t0TOFError ft0).err2
    ∧ (combinedEvTime maxEvTimeTOF t0TOFValue t0TOFError ft0).err2
        ≤ kErrDiamond * kErrDiamond
    ∧ kErrDiamond * kErrDiamond < 999 * 999 := by
  have hle := kWeightDiamond_le_finalSum maxEvTimeTOF t0TOFValue t0TOFError ft0
  have hpos : 0 < (combinedFinal maxEvTimeTOF t0TOFValue t0TOFError ft0).sumOfWeights :=
    lt_of_lt_of_le kWeightDiamond_pos hle
  refine ⟨rfl, hle, ?_, ?_, ?_⟩
  · exact one_div_pos.mpr hpos
  · calc (combinedEvTime maxEvTimeTOF t0TOFValue t0TOFError ft0).err2
        = 1 / (combinedFinal maxEvTimeTOF t0TOFValue t0TOFError ft0).sumOfWeights := rfl
      _ ≤ 1 / kWeightDiamond := one_div_le_one_div_of_le kWeightDiamond_pos hle
      _ = kErrDiamond * kErrDiamond := one_div_kWeightDiamond
  · norm_num [kErrDiamond, kDiamond]

/-- C5: the validity gate of the TOF-only branch.  If the bias-removed error
is not below the `kErrDiamond` ceiling, or a positive `maxEvTimeTOF` cutoff
is configured and the magnitude of the bias-removed value is not below it,
the emitted tuple is `(0, kErrDiamond)` with no flag; otherwise the
`EvTimeTOF` flag is set and the bias-removed pair is emitted unchanged. -/
theorem tofOnly_gate_spec (maxEvTimeTOF et erret : ℚ) :
    ((kErrDiamond ≤ erret ∨ (0 < maxEvTimeTOF ∧ maxEvTimeTOF ≤ |et|)) →
      tofOnlyGate maxEvTimeTOF et erret = ⟨noFlags, 0, kErrDiamond⟩)
    ∧ ((erret < kErrDiamond ∧ (maxEvTimeTOF ≤ 0 ∨ |et| < maxEvTimeTOF)) →
      tofOnlyGate maxEvTimeTOF et erret = ⟨⟨true, false⟩, et, erret⟩) := by
  constructor
  · intro h
    unfold tofOnlyGate
    rw [if_neg]
    rintro ⟨h1, h2⟩
    rcases h with h | ⟨hpos, hmag⟩
    · exact absurd h1 (not_lt.mpr h)
    · rcases h2 with h2 | h2
      · exact absurd hpos (not_lt.mpr h2)
      · exact absurd h2 (not_lt.mpr hmag)
  · intro h
    unfold tofOnlyGate
    rw [if_pos h]

/-- C5 witness: a rejected estimate (error at the ceiling) gives the diamond
default, an accepted one is passed through. -/
theorem tofOnly_gate_spec_witness :
    ((kErrDiamond ≤ 300 ∨ (0 < (100000 : ℚ) ∧ (100000 : ℚ) ≤ |(0 : ℚ)|)) ∧
      tofOnlyGate 100000 0 300 = ⟨noFlags, 0, kErrDiamond⟩) ∧
    (((100 : ℚ) < kErrDiamond ∧ ((100000 : ℚ) ≤ 0 ∨ |(50 : ℚ)| < 100000)) ∧
      tofOnlyGate 100000 50 100 = ⟨⟨true, false⟩, 50, 100⟩) :=
  ⟨⟨Or.inl (by norm_num [kErrDiamond, kDiamond]),
    (tofOnly_gate_spec 100000 0 300).1 (Or.inl (by norm_num [kErrDiamond, kDiamond]))⟩,
   ⟨⟨by norm_num [kErrDiamond, kDiamond], Or.inr (by norm_num)⟩,
    (tofOnly_gate_spec 100000 50 100).2
      ⟨by norm_num [kErrDiamond, kDiamond], Or.inr (by norm_num)⟩⟩⟩

/-- C6 counterexample: with an FT0 measurement found but `t0ACValid()` false,
the source still adds the inverse-variance term of the default `(0, 999)` to
the weighted sums (lines 729-740 add `weight = 1/(t0AC[1]²)` outside the
validity check), so the combination is *not* free of an FT0 term: at the
concrete input below the sum of weights gains `1/998001` and the emitted
event-time value moves away from the pure-TOF value `50`. -/
theorem ft0_invalid_term_added :
    (combinedPre 100000 50 100 ⟨true, false, 0, 0⟩).sumOfWeights
        = 1 / 10000 + 1 / 998001
    ∧ (combinedPre 100000 50 100 ⟨false, false, 0, 0⟩).sumOfWeights = 1 / 10000
    ∧ (combinedEvTime 100000 50 100 ⟨true, false, 0, 0⟩).value
        ≠ (combinedEvTime 100000 50 100 ⟨false, false, 0, 0⟩).value := by
  refine ⟨?_, ?_, ?_⟩ <;>
    norm_num [combinedEvTime, combinedFinal, combinedPre, ft0Step, tofStep,
      kErrDiamond, kDiamond, kWeightDiamond]

/-- C6 (amended): the FT0 *flag* is set iff an FT0 measurement is found and
valid; a weighted FT0 term is added iff an FT0 measurement is found at all —
with the measured `(t0AC·1000, t0res·1000)` when valid and the default
`(0, 999)` when invalid (so an invalid FT0 still contributes the weight
`1/999²` with value `0`). -/
theorem ft0_step_spec (ft0 : FT0Info) (s : EvAccum) :
    (ft0.hasFoundFT0 = false → ft0Step ft0 s = s)
    ∧ (ft0.hasFoundFT0 = true → ft0.t0ACValid = true →
        ft0Step ft0 s = ⟨s.eventTime
              + (ft0.t0AC * 1000) * (1 / ((ft0.t0res * 1000) * (ft0.t0res * 1000))),
            s.sumOfWeights + 1 / ((ft0.t0res * 1000) * (ft0.t0res * 1000)),
            ⟨s.flags.evTimeTOF, true⟩⟩)
    ∧ (ft0.hasFoundFT0 = true → ft0.t0ACValid = false →
        ft0Step ft0 s = ⟨s.eventTime, s.sumOfWeights + 1 / 998001, s.flags⟩) := by
  refine ⟨?_, ?_, ?_⟩
  · intro h; simp [ft0Step, h]
  · intro h hv; simp [ft0Step, h, hv]
  · intro h hv
    simp only [ft0Step, h, hv, if_true, if_false, Bool.false_eq_true, Bool.or_false]
    norm_num

/-- C6 amended witness: both the valid and the invalid found-FT0 cases at
concrete inputs. -/
theorem ft0_step_spec_witness :
    (ft0Step ⟨true, true, 2, 1⟩ ⟨0, 0, noFlags⟩
        = ⟨0 + (2 * 1000) * (1 / ((1 * 1000) * (1 * 1000))), 0 + 1 / ((1 * 1000) * (1 * 1000)),
            ⟨false, true⟩⟩)
    ∧ (ft0Step ⟨true, false, 2, 1⟩ ⟨0, 0, noFlags⟩ = ⟨0, 0 + 1 / 998001, noFlags⟩) :=
  ⟨(ft0_step_spec ⟨true, true, 2, 1⟩ ⟨0, 0, noFlags⟩).2.1 rfl rfl,
   (ft0_step_spec ⟨true, false, 2, 1⟩ ⟨0, 0, noFlags⟩).2.2 rfl rfl⟩

/-- C4 (amended): on a batch grouped contiguously by collision (groups are
well formed, the full-table slice of each assigned collision is exactly its
group, and group keys are pairwise distinct), each enabled output table of
`tofEventTime::processRun3` receives exactly one appended tuple per input
track, in input-track order — row `i` corresponds to input track `i`.
Tracks without a collision or failing the event selection receive sentinel
tuples; tracks whose collision was already processed receive the computed
(not sentinel) tuple appended when their collision was first met. -/
theorem evTime_rows_one_per_track (maxEvTimeTOF : ℚ) (sel8cfg : Bool)
    (gs : List TrackGroup)
    (hok : ∀ g ∈ gs, g.ok)
    (hfil : ∀ g ∈ gs, 0 ≤ g.cid →
      (joinGroups gs).filter (fun x => x.collisionId == g.cid) = g.members)
    (hpair : gs.Pairwise fun a b => a.cid ≠ b.cid) :
    run3EvTimeTOFFT0 maxEvTimeTOF sel8cfg (joinGroups gs)
        = (joinGroups gs).map (expectedRowC maxEvTimeTOF sel8cfg)
    ∧ run3EvTimeTOFOnly maxEvTimeTOF sel8cfg (joinGroups gs)
        = (joinGroups gs).map (expectedRowT maxEvTimeTOF sel8cfg)
    ∧ (run3EvTimeTOFFT0 maxEvTimeTOF sel8cfg (joinGroups gs)).length
        = (joinGroups gs).length := by
  have hlast : ∀ g ∈ gs, groupSelected sel8cfg g = true → g.cid ≠ (-1 : Int) := by
    intro g _ hs
    have h0 : 0 ≤ g.cid := by
      unfold groupSelected at hs
      exact of_decide_eq_true (Bool.and_elim_left hs)
    omega
  have h1 : run3EvTimeTOFFT0 maxEvTimeTOF sel8cfg (joinGroups gs)
      = (joinGroups gs).map (expectedRowC maxEvTimeTOF sel8cfg) := by
    unfold run3EvTimeTOFFT0
    rw [ptg_groups_spec sentinelRowC
      (fun t x => combinedEvTime maxEvTimeTOF x.t0TOFValue x.t0TOFError t.ft0)
      (fun x => combinedEvTime maxEvTimeTOF x.t0TOFValue x.t0TOFError x.ft0)
      (fun t x hft => by simp only []; rw [hft]) sel8cfg (joinGroups gs) gs (-1)
      hok hfil hpair hlast]
    apply List.map_congr_left
    intro x _
    unfold expectedRowC
    rfl
  have h2 : run3EvTimeTOFOnly maxEvTimeTOF sel8cfg (joinGroups gs)
      = (joinGroups gs).map (expectedRowT maxEvTimeTOF sel8cfg) := by
    unfold run3EvTimeTOFOnly
    rw [ptg_groups_spec sentinelRowT
      (fun _ x => tofOnlyGate maxEvTimeTOF x.t0TOFValue x.t0TOFError)
      (fun x => tofOnlyGate maxEvTimeTOF x.t0TOFValue x.t0TOFError)
      (fun t x _ => rfl) sel8cfg (joinGroups gs) gs (-1) hok hfil hpair hlast]
    apply List.map_congr_left
    intro x _
    unfold expectedRowT
    rfl
  exact ⟨h1, h2, by rw [h1, List.length_map]⟩

/-- A two-track collision used in the C4 counterexample and witness. -/
def trkC4a : TrackE := ⟨0, true, ⟨false, false, 0, 0⟩, 50, 100⟩

/-- Second track of the same collision (different bias-removed estimate). -/
def trkC4b : TrackE := ⟨0, true, ⟨false, false, 0, 0⟩, 60, 100⟩

/-- An unassigned track (no collision). -/
def trkC4n : TrackE := ⟨-1, false, ⟨false, false, 0, 0⟩, 0, 0⟩

/-- C4 counterexample: the claim asserts that a track skipped by the outer
loop because its collision was already processed receives a *sentinel* tuple.
At the concrete batch `[trkC4a, trkC4b]` (one collision, two tracks) the
second track is exactly such a skipped track, yet its appended tuple is the
computed estimate `⟨EvTimeTOF flag, 60, 100²⟩` — flags set and value `60` —
not a sentinel (every sentinel row has zero flags). -/
theorem already_processed_track_not_sentinel :
    run3EvTimeTOFFT0 100000 false [trkC4a, trkC4b]
        = [⟨⟨true, false⟩, 50, 10000⟩, ⟨⟨true, false⟩, 60, 10000⟩]
    ∧ trkC4b.collisionId = trkC4a.collisionId
    ∧ selectedB false trkC4b = true
    ∧ (⟨⟨true, false⟩, 60, 10000⟩ : EvTimeRowC).flags ≠ noFlags := by
  refine ⟨?_, rfl, rfl, by decide⟩
  show processTracksGrouped _ _ _ _ _ _ = _
  norm_num [processTracksGrouped, selectedB, trkC4a, trkC4b, List.filter,
    combinedEvTime, combinedFinal, combinedPre, ft0Step, tofStep,
    kErrDiamond, kDiamond, kWeightDiamond, noFlags]

/-- Concrete grouped batch for the C4 witness: one selected two-track
collision followed by the group of unassigned tracks. -/
def gsC4 : List TrackGroup :=
  [⟨0, true, ⟨false, false, 0, 0⟩, [trkC4a, trkC4b]⟩,
   ⟨-1, false, ⟨false, false, 0, 0⟩, [trkC4n]⟩]

/-- C4 witness: the grouping hypotheses hold for `gsC4` and the one-row-per-
track correspondence follows. -/
theorem evTime_rows_one_per_track_witness :
    ((∀ g ∈ gsC4, g.ok)
      ∧ (∀ g ∈ gsC4, 0 ≤ g.cid →
          (joinGroups gsC4).filter (fun x => x.collisionId == g.cid) = g.members)
      ∧ gsC4.Pairwise (fun a b => a.cid ≠ b.cid))
    ∧ (run3EvTimeTOFFT0 100000 true (joinGroups gsC4)
          = (joinGroups gsC4).map (expectedRowC 100000 true)
        ∧ run3EvTimeTOFOnly 100000 true (joinGroups gsC4)
          = (joinGroups gsC4).map (expectedRowT 100000 true)
        ∧ (run3EvTimeTOFFT0 100000 true (joinGroups gsC4)).length
          = (joinGroups gsC4).length) :=
  ⟨⟨by decide, by decide, by decide⟩,
   evTime_rows_one_per_track 100000 true gsC4 (by decide) (by decide) (by decide)⟩

/-! ## Calibration setup (`struct TOFCalibConfig`, source lines 64-345)

`processSetup` (lines 234-320) refreshes the parametrization when the run
number of the incoming bunch crossing differs from the cached
`mLastRunNumber`, and is a no-op otherwise.  The CCDB store is modelled as a
function environment; the `Nat` component of the result counts the fetches
performed (`getSpecific` calls). A `LOG(fatal)` — which aborts the process —
is modelled as `Except.error`. -/

/-- `o2::tof::ParameterCollection`: a map from reconstruction-pass label to a
parameter bundle; `retrieveParameters` succeeds iff the pass has an entry. -/
structure ParamCollection (P : Type) where
  passes : List (String × P)

/-- `paramCollection.retrieveParameters(params, pass)` (success/found bundle). -/
def retrieveParameters {P : Type} (pc : ParamCollection P) (pass : String) : Option P :=
  pc.passes.lookup pass

/-- The pass-fallback logic shared by `initSetup` (lines 171-196) and
`processSetup` (lines 264-289): try the requested pass; on a miss either
abort (`fatalOnPassNotAvailable`) or warn and try the default pass, whose
miss aborts.  The `Bool` of the success records whether the warning-fallback
path was taken. -/
def resolveFromCollection {P : Type} (pc : ParamCollection P)
    (pass passDefault : String) (fatalOnPassNotAvailable : Bool) :
    Except String (P × Bool) :=
  match retrieveParameters pc pass with
  | some p => .ok (p, false)
  | none =>
    if fatalOnPassNotAvailable then
      .error ("Pass '" ++ pass ++ "' not available in the retrieved CCDB object")
    else
      match retrieveParameters pc passDefault with
      | some p => .ok (p, true)
      | none => .error ("Cannot get default pass for calibration " ++ passDefault)

/-- The configurable options of `TOFCalibConfig` read by `processSetup`.
The positive/negative time-shift paths stand for the pos/neg (or MC) path
pair chosen once from the metadata. -/
structure CalibCfg where
  paramFileName : String
  reconstructionPass : String
  reconstructionPassDefault : String
  fatalOnPassNotAvailable : Bool
  enableTimeDependentResponse : Bool
  timeShiftPathPos : String
  timeShiftPathNeg : String

/-- The external CCDB store: collision-system lookup from the GRPLHCIF
object, parameter collections and time-shift graphs by timestamp. -/
structure CalibEnv (P G : Type) where
  grpCollisionSystem : Int → Int
  paramCollectionAt : Int → ParamCollection P
  timeShiftGraphAt : String → Int → G

/-- The mutable state of `TOFCalibConfig` touched by `processSetup`. -/
structure CalibState (P G : Type) where
  lastRunNumber : Int
  timestamp : Int
  collisionSystem : Int
  params : P
  shiftPos : Option G
  shiftNeg : Option G

/-- The run number and timestamp of the first bunch crossing of the batch. -/
structure BCInfo where
  runNumber : Int
  timestamp : Int

/-- `nameShift.find(".root") != std::string::npos` (source line 301). -/
def nameIsFromFile (s : String) : Bool := (s.splitOn ".root").length > 1

/-- The `updateTimeShift` lambda of `processSetup` (lines 297-313): an empty
path or a `.root` file path performs no fetch; otherwise the graph is fetched
from the store.  Returns the new shift and the number of fetches. -/
def updateTimeShift {P G : Type} (env : CalibEnv P G) (ts : Int) (path : String)
    (old : Option G) : Option G × Nat :=
  if path = "" then (old, 0)
  else if nameIsFromFile path then (old, 0)
  else (some (env.timeShiftGraphAt path ts), 1)

/-- `TOFCalibConfig::processSetup` (source lines 234-320). -/
def processSetup {P G : Type} (cfg : CalibCfg) (env : CalibEnv P G)
    (st : CalibState P G) (bc : BCInfo) : Except String (CalibState P G) × Nat :=
  -- `if (mLastRunNumber == bc.runNumber()) return;` (lines 241-243)
  if st.lastRunNumber = bc.runNumber then (.ok st, 0)
  else
    let st1 := { st with lastRunNumber := bc.runNumber, timestamp := bc.timestamp }
    -- beam-type check (lines 249-255): fetch GRPLHCIF only when not yet set
    let cs : Int × Nat :=
      if st1.collisionSystem = -1 then (env.grpCollisionSystem bc.timestamp, 1)
      else (st1.collisionSystem, 0)
    let st2 := { st1 with collisionSystem := cs.1 }
    -- `if (!mEnableTimeDependentResponse) return;` (lines 257-259)
    if cfg.enableTimeDependentResponse = false then (.ok st2, cs.2)
    else
      -- parametrization update (lines 261-289), skipped when taken from file
      if cfg.paramFileName = "" then
        match resolveFromCollection (env.paramCollectionAt bc.timestamp)
            cfg.reconstructionPass cfg.reconstructionPassDefault
            cfg.fatalOnPassNotAvailable with
        | .error e => (.error e, cs.2 + 1)
        | .ok (p, _) =>
          let st3 := { st2 with params := p }
          let sp := updateTimeShift env bc.timestamp cfg.timeShiftPathPos st3.shiftPos
          let sn := updateTimeShift env bc.timestamp cfg.timeShiftPathNeg st3.shiftNeg
          (.ok { st3 with shiftPos := sp.1, shiftNeg := sn.1 }, cs.2 + 1 + sp.2 + sn.2)
      else
        let sp := updateTimeShift env bc.timestamp cfg.timeShiftPathPos st2.shiftPos
        let sn := updateTimeShift env bc.timestamp cfg.timeShiftPathNeg st2.shiftNeg
        (.ok { st2 with shiftPos := sp.1, shiftNeg := sn.1 }, cs.2 + sp.2 + sn.2)

/-- C7: calling `processSetup` with the run number already cached is a no-op
— the previously resolved state (parameter bundle included) is returned
bit-identical and no fetch from the calibration store is performed. -/
theorem processSetup_same_run_noop {P G : Type} (cfg : CalibCfg) (env : CalibEnv P G)
    (st : CalibState P G) (bc : BCInfo) (h : st.lastRunNumber = bc.runNumber) :
    processSetup cfg env st bc = (.ok st, 0) := by
  unfold processSetup
  rw [if_pos h]

/-- C7 witness: concrete same-run call (parameters instantiated at `Nat`). -/
theorem processSetup_same_run_noop_witness :
    (⟨300000, 5, 0, 7, none, none⟩ : CalibState Nat Nat).lastRunNumber
        = (⟨300000, 9⟩ : BCInfo).runNumber
    ∧ processSetup ⟨"", "apass1", "unanchored", true, true, "", ""⟩
        ⟨fun _ => 0, fun _ => ⟨[]⟩, fun _ _ => 0⟩
        ⟨300000, 5, 0, 7, none, none⟩ ⟨300000, 9⟩
      = (.ok ⟨300000, 5, 0, 7, none, none⟩, 0) :=
  ⟨rfl, processSetup_same_run_noop ⟨"", "apass1", "unanchored", true, true, "", ""⟩
    ⟨fun _ => 0, fun _ => ⟨[]⟩, fun _ _ => 0⟩
    ⟨300000, 5, 0, 7, none, none⟩ ⟨300000, 9⟩ rfl⟩

/-- C8: pass-miss handling of the calibration resolution (lines 171-196 and
264-289).  When the requested pass is missing and `fatalOnPassNotAvailable`
is false, the default pass's parameters are returned with the warning flag
set, without aborting; when the default pass is also missing, or when
`fatalOnPassNotAvailable` is true, the resolution aborts (`Except.error`). -/
theorem resolve_pass_fallback {P : Type} (pc : ParamCollection P)
    (pass passDefault : String) (p : P) :
    (retrieveParameters pc pass = none → retrieveParameters pc passDefault = some p →
      resolveFromCollection pc pass passDefault false = .ok (p, true))
    ∧ (retrieveParameters pc pass = none → retrieveParameters pc passDefault = none →
      ∃ e, resolveFromCollection pc pass passDefault false = .error e)
    ∧ (retrieveParameters pc pass = none →
      ∃ e, resolveFromCollection pc pass passDefault true = .error e) := by
  refine ⟨?_, ?_, ?_⟩
  · intro h hd
    unfold resolveFromCollection
    rw [h, hd]
    rfl
  · intro h hd
    unfold resolveFromCollection
    rw [h, hd]
    exact ⟨_, rfl⟩
  · intro h
    unfold resolveFromCollection
    rw [h]
    exact ⟨_, rfl⟩

/-- C8 witness: collection holding only pass `"Y"`; requesting missing pass
`"X"` with non-fatal policy returns `"Y"`'s parameters with a warning. -/
theorem resolve_pass_fallback_witness :
    (retrieveParameters (⟨[("Y", 42)]⟩ : ParamCollection Nat) "X" = none
      ∧ retrieveParameters (⟨[("Y", 42)]⟩ : ParamCollection Nat) "Y" = some 42)
    ∧ resolveFromCollection (⟨[("Y", 42)]⟩ : ParamCollection Nat) "X" "Y" false
        = .ok (42, true) :=
  ⟨⟨by decide, by decide⟩,
   (resolve_pass_fallback (⟨[("Y", 42)]⟩ : ParamCollection Nat) "X" "Y" 42).1
     (by decide) (by decide)⟩

/-! ## Signal extraction (`struct tofSignal`, source lines 347-486) -/

/-- The track field read by the usable-for-PID flag. -/
structure TrackS where
  hasTOF : Bool
deriving DecidableEq, Repr

/-- `isTrackGoodMatchForTOFPID` (source lines 350-356): false without a TOF
hit, true otherwise. -/
def isTrackGoodMatchForTOFPID (tr : TrackS) : Bool :=
  if !tr.hasTOF then false else true

/-- Flag appended by `tofSignal::processRun3` (source line 459-463):
`tableFlags(isTrackGoodMatchForTOFPID(trk))`. -/
def tofSignalFlagRun3 (tr : TrackS) : Bool := isTrackGoodMatchForTOFPID tr

/-- Flag appended by `tofSignal::processRun2` (source line 482):
`tableFlags(true)` for every track. -/
def tofSignalFlagRun2 (_tr : TrackS) : Bool := true

/-- C9 counterexample: the Run 2 processing path emits the usable flag `true`
for a track without a TOF hit, so the flag is *not* `true` only for tracks
with a TOF hit in every path that emits it. -/
theorem run2_flag_true_without_tof :
    tofSignalFlagRun2 ⟨false⟩ = true ∧ (⟨false⟩ : TrackS).hasTOF = false := by
  exact ⟨rfl, rfl⟩

/-- C9 (amended): in the Run 3 path the usable flag equals `hasTOF`; the
Run 2 path emits `true` unconditionally. -/
theorem usable_flag_spec (tr : TrackS) :
    tofSignalFlagRun3 tr = tr.hasTOF ∧ tofSignalFlagRun2 tr = true := by
  constructor
  · unfold tofSignalFlagRun3 isTrackGoodMatchForTOFPID
    cases tr.hasTOF <;> rfl
  · rfl

/-! ## Nsigma computation (`struct tofPidMerge`, source lines 852-1533)

The response formula itself lives in `o2::pid::tof::ExpTimes`
(`ReconstructionDataFormats`/`PID` headers of O2), outside this repository;
only its call sites are in `src/`.  The expected time and expected sigma of a
species are therefore kept abstract (they are functions of the calibration
parameters and the track), and the separation is modelled from the spec. -/

/-- Modelled from the spec: `GetSeparation` of `o2::pid::tof::ExpTimes` (not
under `src/`): `nsigma(params, track, species, eventTime) =
(observedSignal − eventTime − expectedTime) / expectedSigma`. -/
def getSeparation (expTime expSigma observedSignal eventTime : ℚ) : ℚ :=
  (observedSignal - eventTime - expTime) / expSigma

/-- The track fields read by `tofPidMerge::processRun3`. -/
structure TrackP where
  collisionId : Int
  tofSignal : ℚ
  tofEvTime : ℚ
deriving DecidableEq, Repr

/-- The "not computed" sentinel filled by `makeTableEmpty` (lines 1087-1157):
`-999` per species (packed into the tiny table, plain in the full table). -/
def nsigmaSentinel : ℚ := -999

/-- Per-track rows of the tiny Nsigma tables in `tofPidMerge::processRun3`
(lines 1189-1254): one value per enabled species, in the order of
`mEnabledParticles`; a track without a collision gets the sentinel for every
enabled species; otherwise each species' `GetSeparation`.  The emitted value
is the separation before the tiny-table quantization (`packInTable`). -/
def pidTinyRows (enabled : List (Fin 9)) (expTime expSigma : Fin 9 → TrackP → ℚ)
    (trk : TrackP) : List ℚ :=
  if 0 ≤ trk.collisionId then
    enabled.map fun sp =>
      getSeparation (expTime sp trk) (expSigma sp trk) trk.tofSignal trk.tofEvTime
  else
    enabled.map fun _ => nsigmaSentinel

/-- Per-track rows of the full Nsigma tables (lines 1194-1196, 1255-1318):
`(expected resolution, separation)` per enabled species, or the sentinel pair
`(-999, -999)` for a track without a collision. -/
def pidFullRows (enabled : List (Fin 9)) (expTime expSigma : Fin 9 → TrackP → ℚ)
    (trk : TrackP) : List (ℚ × ℚ) :=
  if 0 ≤ trk.collisionId then
    enabled.map fun sp =>
      (expSigma sp trk,
       getSeparation (expTime sp trk) (expSigma sp trk) trk.tofSignal trk.tofEvTime)
  else
    enabled.map fun _ => (nsigmaSentinel, nsigmaSentinel)

/-- C1: for every track with a collision association and every enabled
species, the emitted Nsigma equals
`(observedSignal − eventTime − expectedTime) / expectedSigma`; at the fixture
`signal = 20000`, `eventTime = 100`, `expectedTime = 19800`,
`expectedSigma = 80` the value is `5/4 = 1.25`. -/
theorem nsigma_formula (enabled : List (Fin 9)) (expTime expSigma : Fin 9 → TrackP → ℚ)
    (trk : TrackP) (h : 0 ≤ trk.collisionId) :
    pidTinyRows enabled expTime expSigma trk
        = enabled.map (fun sp =>
            (trk.tofSignal - trk.tofEvTime - expTime sp trk) / expSigma sp trk)
    ∧ pidFullRows enabled expTime expSigma trk
        = enabled.map (fun sp =>
            (expSigma sp trk,
             (trk.tofSignal - trk.tofEvTime - expTime sp trk) / expSigma sp trk))
    ∧ getSeparation 19800 80 20000 100 = 5 / 4 := by
  refine ⟨?_, ?_, by norm_num [getSeparation]⟩
  · unfold pidTinyRows
    rw [if_pos h]
    rfl
  · unfold pidFullRows
    rw [if_pos h]
    rfl

/-- C1 witness: one enabled species with the fixture calibration values on a
concrete track with a collision. -/
theorem nsigma_formula_witness :
    (0 : Int) ≤ (⟨3, 20000, 100⟩ : TrackP).collisionId
    ∧ (pidTinyRows [2] (fun _ _ => 19800) (fun _ _ => 80) ⟨3, 20000, 100⟩
          = [2].map (fun _ : Fin 9 => ((20000 : ℚ) - 100 - 19800) / 80)
        ∧ pidFullRows [2] (fun _ _ => 19800) (fun _ _ => 80) ⟨3, 20000, 100⟩
          = [2].map (fun _ : Fin 9 => ((80 : ℚ), ((20000 : ℚ) - 100 - 19800) / 80))
        ∧ getSeparation 19800 80 20000 100 = 5 / 4) :=
  ⟨by decide,
   nsigma_formula [2] (fun _ _ => 19800) (fun _ _ => 80) ⟨3, 20000, 100⟩ (by decide)⟩

/-! ## Beta and mass (`processRun3BetaM`, source lines 1509-1532)

`o2::pid::tof::Beta::GetBeta` and `o2::pid::tof::TOFMass::GetTOFMass` are in
O2 headers, outside this repository; the loop that calls them is in `src/`
and — decisively for C3 — contains no collision check: every track gets the
same computation. -/

/-- Speed of light in cm/ps. -/
def kCSPEED : ℚ := 299792458 / 10000000000

/-- The track fields read by `processRun3BetaM`.  `collisionId` is carried to
express that the emitted row does not depend on it. -/
structure TrackB where
  collisionId : Int
  hasTOF : Bool
  length : ℚ
  tofSignal : ℚ
  tofEvTime : ℚ
  tofExpMom : ℚ
  sign : ℚ
  eta : ℚ
deriving DecidableEq, Repr

/-- Modelled from the spec: `Beta::GetBeta` (not under `src/`): beta derives
from the track length and the time of flight `signal − eventTime`, with the
saturating sentinel `-999` when the track has no TOF hit or the time of
flight is not positive (the near-zero-division guard of §4.4). -/
def getBeta (tr : TrackB) : ℚ :=
  if tr.hasTOF then
    if 0 < tr.tofSignal - tr.tofEvTime then
      tr.length / (tr.tofSignal - tr.tofEvTime) / kCSPEED
    else nsigmaSentinel
  else nsigmaSentinel

/-- Modelled from the spec: the squared TOF mass, `m = p·sqrt(1/β² − 1)`
(`TOFMass::GetTOFMass`, not under `src/`); the square is carried because
`sqrt` is not computable, and the collision-(in)dependence argument is
unaffected. -/
def getTOFMassSq (p beta : ℚ) : ℚ := p ^ 2 * (1 / beta ^ 2 - 1)

/-- The beta value appended by `processRun3BetaM` (source lines 1517-1521)
for every track of the batch — the loop has no collision check. -/
def run3BetaRow (tr : TrackB) : ℚ := getBeta tr

/-- The squared mass appended by `processRun3BetaM` (source lines 1523-1528):
with `enableTOFParamsForBetaMass` the momentum is shift-corrected by the
charge-and-eta-dependent `getMomentumChargeShift` (abstract input `shift`). -/
def run3MassSqRow (useShift : Bool) (shift : ℚ) (tr : TrackB) : ℚ :=
  if useShift then getTOFMassSq (tr.tofExpMom / (1 + tr.sign * shift)) (run3BetaRow tr)
  else getTOFMassSq tr.tofExpMom (run3BetaRow tr)

/-- A concrete collision-less track with a TOF hit. -/
def trkC3 : TrackB := ⟨-1, true, 370, 20000, 0, 1, 1, 0⟩

/-- C3 counterexample: the claim asserts that for a track without a collision
the beta/mass outputs are filled with sentinel values rather than computed.
`processRun3BetaM` has no collision check: at the concrete collision-less
track `trkC3` the emitted beta is the computed, positive value
`370 / 20000 / kCSPEED` and not the `-999` sentinel. -/
theorem betaM_no_collision_computed :
    trkC3.collisionId < 0
    ∧ run3BetaRow trkC3 = 370 / 20000 / kCSPEED
    ∧ run3BetaRow trkC3 ≠ nsigmaSentinel
    ∧ 0 < run3BetaRow trkC3 := by
  refine ⟨by decide, ?_, ?_, ?_⟩ <;>
    norm_num [run3BetaRow, getBeta, trkC3, kCSPEED, nsigmaSentinel]

/-- C3 (amended): for a track without a collision association the event-time
tuple is the sentinel `(0, 999)` with no source flag set (in both Run 3
branches), and every enabled species table receives the `-999` not-computed
sentinel; the beta/mass outputs, however, are computed exactly as for any
other track — the emitted row is independent of the collision association
(the sentinel `-999` appears only via the no-TOF / non-positive
time-of-flight guard). -/
theorem no_collision_outputs (maxEvTimeTOF : ℚ) (sel8cfg : Bool) (t : TrackE)
    (enabled : List (Fin 9)) (expTime expSigma : Fin 9 → TrackP → ℚ) (trkP : TrackP)
    (useShift : Bool) (shift : ℚ) (tb : TrackB) (c : Int)
    (ht : t.collisionId < 0) (hp : trkP.collisionId < 0) :
    expectedRowC maxEvTimeTOF sel8cfg t = sentinelRowC
    ∧ expectedRowT maxEvTimeTOF sel8cfg t = sentinelRowT
    ∧ pidTinyRows enabled expTime expSigma trkP = enabled.map (fun _ => nsigmaSentinel)
    ∧ pidFullRows enabled expTime expSigma trkP
        = enabled.map (fun _ => (nsigmaSentinel, nsigmaSentinel))
    ∧ run3BetaRow { tb with collisionId := c } = run3BetaRow tb
    ∧ run3MassSqRow useShift shift { tb with collisionId := c }
        = run3MassSqRow useShift shift tb := by
  have hsel : selectedB sel8cfg t = false := by
    unfold selectedB
    have : ¬ (0 ≤ t.collisionId) := not_le.mpr ht
    simp [this]
  have hnp : ¬ (0 ≤ trkP.collisionId) := not_le.mpr hp
  refine ⟨?_, ?_, ?_, ?_, rfl, rfl⟩
  · unfold expectedRowC
    simp [hsel]
  · unfold expectedRowT
    simp [hsel]
  · unfold pidTinyRows
    rw [if_neg hnp]
  · unfold pidFullRows
    rw [if_neg hnp]

/-- C3 amended witness: the sentinels and the collision-independence of beta
at concrete inputs. -/
theorem no_collision_outputs_witness :
    ((⟨-1, false, ⟨false, false, 0, 0⟩, 0, 0⟩ : TrackE).collisionId < 0
      ∧ (⟨-1, 0, 0⟩ : TrackP).collisionId < 0)
    ∧ (expectedRowC 100000 false ⟨-1, false, ⟨false, false, 0, 0⟩, 0, 0⟩ = sentinelRowC
      ∧ expectedRowT 100000 false ⟨-1, false, ⟨false, false, 0, 0⟩, 0, 0⟩ = sentinelRowT
      ∧ pidTinyRows [2] (fun _ _ => 19800) (fun _ _ => 80) ⟨-1, 0, 0⟩
          = [2].map (fun _ : Fin 9 => nsigmaSentinel)
      ∧ pidFullRows [2] (fun _ _ => 19800) (fun _ _ => 80) ⟨-1, 0, 0⟩
          = [2].map (fun _ : Fin 9 => (nsigmaSentinel, nsigmaSentinel))
      ∧ run3BetaRow { trkC3 with collisionId := 5 } = run3BetaRow trkC3
      ∧ run3MassSqRow true (1 / 10) { trkC3 with collisionId := 5 }
          = run3MassSqRow true (1 / 10) trkC3) :=
  ⟨⟨by decide, by decide⟩,
   no_collision_outputs 100000 false ⟨-1, false, ⟨false, false, 0, 0⟩, 0, 0⟩
     [2] (fun _ _ => 19800) (fun _ _ => 80) ⟨-1, 0, 0⟩ true (1 / 10) trkC3 5
     (by decide) (by decide)⟩
